import Mathlib

/-!
Verification of the s3backup repository: a shallow embedding of its
GFS (grandfather-father-son) backup classification, retention/rotation,
upload pipeline and CLI orchestration, with theorems checking the design
document's claims against the code.

Sources embedded:
* `util.GetKeyType`, `util.CheckPrefix`, `util.FindKeysInBucketByPrefix`,
  `util.RetrieveSortedKeysByTime` (util package);
* `upload.UploadObject` (upload package);
* `main`, `runAction`, `runBackupAction`, `getUploadObject`,
  `getRotationPolicy` (main package, reproduced in the README);
* the retention engine (`computePrunable`), `upload.UploadFile` and
  `s3client.SortKeysByTime` are not present in the source tree and are
  modelled from the design document, as marked in their doc comments.
-/

namespace S3Backup

/-! ## Calendar model (Go `time.Time` dates and weekdays) -/

/-- A calendar date as Go's `time.Time.Date()` exposes it:
year, month (1..12), day (1..31). -/
structure GoDate where
  year : Int
  month : Nat
  day : Nat
deriving DecidableEq, Repr

/-- Days since 1970-01-01 of a civil date (standard civil-from-days
arithmetic, as used by Go's proleptic Gregorian calendar). -/
def daysFromCivil (y : Int) (m : Nat) (d : Nat) : Int :=
  let yAdj : Int := if m ≤ 2 then y - 1 else y
  let era : Int := (if 0 ≤ yAdj then yAdj else yAdj - 399) / 400
  let yoe : Int := yAdj - era * 400
  let mp : Int := (Int.ofNat m + 9).emod 12
  let doy : Int := (153 * mp + 2) / 5 + Int.ofNat d - 1
  let doe : Int := yoe * 365 + yoe / 4 - yoe / 100 + doy
  era * 146097 + doe - 719468

/-- The weekday of a date, numbered as Go's `time.Weekday`:
0 = Sunday, 1 = Monday, ..., 6 = Saturday (1970-01-01 was a Thursday). -/
def weekday (t : GoDate) : Int :=
  (daysFromCivil t.year t.month t.day + 4).emod 7

/-- Go's `time.Monday` constant. -/
def timeMonday : Int := 1

/-! ## Rotation policy (rpolicy.RotationPolicy) -/

/-- `rpolicy.RotationPolicy`, as constructed by `getRotationPolicy` in
main and by the test suite.  Retention periods are durations (modelled as
plain numbers); retention counts are the non-negative object counts. -/
structure RotationPolicy where
  DailyRetentionPeriod : Nat
  DailyRetentionCount : Nat
  DailyPrefix : String
  WeeklyRetentionPeriod : Nat
  WeeklyRetentionCount : Nat
  WeeklyPrefix : String
  MonthlyPrefix : String
  EnforceRetentionPeriod : Bool
deriving DecidableEq, Repr

/-- `now.New(keyTime).BeginningOfMonth().Date()` (jinzhu/now): the first
day of the date's month. -/
def beginningOfMonth (t : GoDate) : GoDate :=
  { year := t.year, month := t.month, day := 1 }

/-- `util.GetKeyType`: classify a timestamp into the policy's monthly,
weekly or daily tier key name, exactly as the Go source: monthly when
the date equals the first day of its month, else weekly when the weekday
is Monday, else daily. -/
def GetKeyType (policy : RotationPolicy) (keyTime : GoDate) : String :=
  let monthly := beginningOfMonth keyTime
  if keyTime.year = monthly.year ∧ monthly.month = keyTime.month ∧ monthly.day = keyTime.day then
    policy.MonthlyPrefix
  else if weekday keyTime = timeMonday then
    policy.WeeklyPrefix
  else
    policy.DailyPrefix

/-- The policy every caller in the repository builds (`getRotationPolicy`
and the test suite): tier tags `daily_`, `weekly_`, `monthly_`. -/
def standardTierPolicy : RotationPolicy :=
  { DailyRetentionPeriod := 168
    DailyRetentionCount := 6
    DailyPrefix := "daily_"
    WeeklyRetentionPeriod := 672
    WeeklyRetentionCount := 4
    WeeklyPrefix := "weekly_"
    MonthlyPrefix := "monthly_"
    EnforceRetentionPeriod := true }

/-- Sanity: 2024-03-04 was a Monday, 2024-03-05 a Tuesday,
2024-09-01 a Sunday, 1970-01-01 a Thursday. -/
theorem weekday_examples :
    weekday ⟨2024, 3, 4⟩ = 1 ∧ weekday ⟨2024, 3, 5⟩ = 2 ∧
    weekday ⟨2024, 9, 1⟩ = 0 ∧ weekday ⟨1970, 1, 1⟩ = 4 := by
  decide

/-- C1: `GetKeyType` is total and, whenever the policy's three tier tags
are pairwise distinct, returns exactly one of them: the monthly tag iff
the timestamp falls on the first calendar day of its month; the weekly
tag iff the day is not the first of the month and the weekday is Monday;
and the daily tag otherwise. -/
theorem GetKeyType_classifies (p : RotationPolicy) (t : GoDate)
    (hmw : p.MonthlyPrefix ≠ p.WeeklyPrefix)
    (hmd : p.MonthlyPrefix ≠ p.DailyPrefix)
    (hwd : p.WeeklyPrefix ≠ p.DailyPrefix) :
    (GetKeyType p t = p.MonthlyPrefix ∨ GetKeyType p t = p.WeeklyPrefix ∨
      GetKeyType p t = p.DailyPrefix) ∧
    (GetKeyType p t = p.MonthlyPrefix ↔ t.day = 1) ∧
    (GetKeyType p t = p.WeeklyPrefix ↔ (t.day ≠ 1 ∧ weekday t = timeMonday)) ∧
    (GetKeyType p t = p.DailyPrefix ↔ (t.day ≠ 1 ∧ weekday t ≠ timeMonday)) := by
  unfold GetKeyType beginningOfMonth
  by_cases h1 : t.day = 1
  · simp [h1, hmw, hmd]
  · have h1' : ¬(1 = t.day) := fun h => h1 h.symm
    by_cases h2 : weekday t = timeMonday
    · simp [h1, h1', h2, hmw.symm, hwd]
    · simp [h1, h1', h2, hmd.symm, hwd.symm]

/-- Witness for C1: for the policy the repository actually builds, the
first of a month classifies as monthly, a non-first Monday as weekly and
a non-first Tuesday as daily. -/
theorem GetKeyType_classifies_witness :
    (GetKeyType standardTierPolicy ⟨2024, 3, 1⟩ = standardTierPolicy.MonthlyPrefix ↔
      (GoDate.mk 2024 3 1).day = 1) ∧
    (GetKeyType standardTierPolicy ⟨2024, 3, 4⟩ = standardTierPolicy.WeeklyPrefix ↔
      ((GoDate.mk 2024 3 4).day ≠ 1 ∧ weekday ⟨2024, 3, 4⟩ = timeMonday)) ∧
    (GetKeyType standardTierPolicy ⟨2024, 3, 5⟩ = standardTierPolicy.DailyPrefix ↔
      ((GoDate.mk 2024 3 5).day ≠ 1 ∧ weekday ⟨2024, 3, 5⟩ ≠ timeMonday)) :=
  ⟨(GetKeyType_classifies standardTierPolicy ⟨2024, 3, 1⟩ (by decide) (by decide) (by decide)).2.1,
   (GetKeyType_classifies standardTierPolicy ⟨2024, 3, 4⟩ (by decide) (by decide) (by decide)).2.2.1,
   (GetKeyType_classifies standardTierPolicy ⟨2024, 3, 5⟩ (by decide) (by decide) (by decide)).2.2.2⟩

/-! ## Retention engine (RetentionEngine / computePrunable) -/

/-- `s3client.BucketEntry`: one store-listing record, a key with its
last-modified timestamp (modelled as a plain number). -/
structure BucketEntry where
  key : String
  lastModified : Nat
deriving DecidableEq, Repr

/-- The rotation tiers. -/
inductive Tier where
  | Monthly
  | Weekly
  | Daily
deriving DecidableEq, Repr

/-- The canonical retention ordering: newest first (`lastModified`
descending), ties broken by key lexical order (lexicographic order on
the key's characters) for determinism. -/
def entryBefore (a b : BucketEntry) : Prop :=
  b.lastModified < a.lastModified ∨
    (a.lastModified = b.lastModified ∧ a.key.data ≤ b.key.data)

instance : DecidableRel entryBefore := by
  unfold entryBefore
  infer_instance

instance : IsTotal BucketEntry entryBefore :=
  ⟨fun a b => by
    unfold entryBefore
    rcases Nat.lt_trichotomy a.lastModified b.lastModified with h | h | h
    · exact Or.inr (Or.inl h)
    · rcases le_total a.key.data b.key.data with hk | hk
      · exact Or.inl (Or.inr ⟨h, hk⟩)
      · exact Or.inr (Or.inr ⟨h.symm, hk⟩)
    · exact Or.inl (Or.inl h)⟩

instance : IsTrans BucketEntry entryBefore :=
  ⟨fun a b c hab hbc => by
    unfold entryBefore at *
    rcases hab with h1 | ⟨h1, hk1⟩
    · rcases hbc with h2 | ⟨h2, _⟩
      · exact Or.inl (h2.trans h1)
      · exact Or.inl (h2 ▸ h1)
    · rcases hbc with h2 | ⟨h2, hk2⟩
      · exact Or.inl (h1 ▸ h2)
      · exact Or.inr ⟨h1.trans h2, hk1.trans hk2⟩⟩

/-- Sort listing entries newest first with deterministic tie-breaks,
the canonical sort of the retention engine. -/
def sortEntries (entries : List BucketEntry) : List BucketEntry :=
  List.insertionSort entryBefore entries

/-- Modelled from the spec: the retention engine (the `rotate` package's
`computePrunable`) is not under src/ — only its policy type, callers and
documentation are.  Per the design document: sort entries newest first
(ties by key), keep the monthly tier untouched, keep the newest
`keepCount` entries of a weekly/daily tier, and delete the remaining
candidates — all of them when `enforceRetentionPeriod` is false, else
only those at least the tier's retention period old. -/
def prunableTier (keepCount : Nat) (period : Nat) (enforce : Bool)
    (entries : List BucketEntry) (now : Nat) : List String :=
  let candidates := (sortEntries entries).drop keepCount
  let eligible :=
    if enforce then candidates.filter (fun e => period ≤ now - e.lastModified)
    else candidates
  eligible.map (fun e => e.key)

/-- Modelled from the spec: tier dispatch of the retention computation
(`computePrunable(policy, tier, entries, now)`). -/
def computePrunable (policy : RotationPolicy) (tier : Tier)
    (entries : List BucketEntry) (now : Nat) : List String :=
  match tier with
  | .Monthly => []
  | .Weekly =>
      prunableTier policy.WeeklyRetentionCount policy.WeeklyRetentionPeriod
        policy.EnforceRetentionPeriod entries now
  | .Daily =>
      prunableTier policy.DailyRetentionCount policy.DailyRetentionPeriod
        policy.EnforceRetentionPeriod entries now

/-- A policy with daily retention count 1 and the retention period not
enforced, used to exercise the retention computation. -/
def countOnePolicy : RotationPolicy :=
  { DailyRetentionPeriod := 168
    DailyRetentionCount := 1
    DailyPrefix := "daily_"
    WeeklyRetentionPeriod := 672
    WeeklyRetentionCount := 4
    WeeklyPrefix := "weekly_"
    MonthlyPrefix := "monthly_"
    EnforceRetentionPeriod := false }

/-- Counterexample to C2 as stated: with two daily entries sharing the
same `lastModified` (keys `a` and `b`, both at time 5) and retention
count 1, the computation prunes exactly one key (`b`, the tie-break
loser), but the pruned entry is not strictly older than the surviving
one — both carry timestamp 5. -/
theorem computePrunable_tie_not_strictly_older :
    computePrunable countOnePolicy Tier.Daily
        [⟨"a", 5⟩, ⟨"b", 5⟩] 100 = ["b"] ∧
    ¬ (∀ d ∈ [BucketEntry.mk "a" 5, BucketEntry.mk "b" 5],
        d.key ∈ computePrunable countOnePolicy Tier.Daily
            [⟨"a", 5⟩, ⟨"b", 5⟩] 100 →
        ∀ s ∈ [BucketEntry.mk "a" 5, BucketEntry.mk "b" 5],
          s.key ∉ computePrunable countOnePolicy Tier.Daily
              [⟨"a", 5⟩, ⟨"b", 5⟩] 100 →
          d.lastModified < s.lastModified) := by
  constructor
  · decide
  · intro h
    exact absurd (h ⟨"b", 5⟩ (by decide) (by decide) ⟨"a", 5⟩ (by decide) (by decide))
      (by decide)

/-- C2 (amended): for a policy with `dailyRetentionCount = N` not
enforcing the retention period and a daily entry list of length `M > N`
whose `lastModified` stamps are pairwise distinct, `computePrunable`
returns the keys beyond the newest `N` of the canonical sort — exactly
`M − N` keys — the kept and pruned entries partition the input, and
every pruned entry is strictly older than every surviving entry. -/
theorem computePrunable_daily_count (p : RotationPolicy)
    (entries : List BucketEntry) (now : Nat)
    (henf : p.EnforceRetentionPeriod = false)
    (hlen : p.DailyRetentionCount < entries.length)
    (hdist : entries.Pairwise (fun a b => a.lastModified ≠ b.lastModified)) :
    computePrunable p Tier.Daily entries now =
      ((sortEntries entries).drop p.DailyRetentionCount).map (fun e => e.key) ∧
    (computePrunable p Tier.Daily entries now).length =
      entries.length - p.DailyRetentionCount ∧
    ((sortEntries entries).take p.DailyRetentionCount ++
      (sortEntries entries).drop p.DailyRetentionCount).Perm entries ∧
    ∀ d ∈ (sortEntries entries).drop p.DailyRetentionCount,
      ∀ s ∈ (sortEntries entries).take p.DailyRetentionCount,
        d.lastModified < s.lastModified := by
  have hperm : (sortEntries entries).Perm entries :=
    List.perm_insertionSort entryBefore entries
  have hsortlen : (sortEntries entries).length = entries.length :=
    hperm.length_eq
  have heq : computePrunable p Tier.Daily entries now =
      ((sortEntries entries).drop p.DailyRetentionCount).map (fun e => e.key) := by
    simp [computePrunable, prunableTier, henf]
  refine ⟨heq, ?_, ?_, ?_⟩
  · rw [heq, List.length_map, List.length_drop, hsortlen]
  · rw [List.take_append_drop]
    exact hperm
  · have hsorted : List.Pairwise entryBefore (sortEntries entries) :=
      List.sorted_insertionSort entryBefore entries
    have hdist' : (sortEntries entries).Pairwise
        (fun a b => a.lastModified ≠ b.lastModified) :=
      (hperm.pairwise_iff (fun h => h.symm)).mpr hdist
    rw [← List.take_append_drop p.DailyRetentionCount (sortEntries entries)]
      at hsorted hdist'
    have hcross := (List.pairwise_append.mp hsorted).2.2
    have hcrossne := (List.pairwise_append.mp hdist').2.2
    intro d hd s hs
    have hbefore := hcross s hs d hd
    have hne := hcrossne s hs d hd
    rcases hbefore with h | ⟨h, _⟩
    · exact h
    · exact absurd h hne

/-- Witness for C2 (amended): three daily entries with distinct
timestamps and retention count 1 — the two oldest are pruned, in
canonical order, and each is strictly older than the survivor. -/
theorem computePrunable_daily_count_witness :
    computePrunable countOnePolicy Tier.Daily
        [⟨"a", 10⟩, ⟨"b", 20⟩, ⟨"c", 30⟩] 99 =
      ((sortEntries [⟨"a", 10⟩, ⟨"b", 20⟩, ⟨"c", 30⟩]).drop
          countOnePolicy.DailyRetentionCount).map (fun e => e.key) ∧
    (computePrunable countOnePolicy Tier.Daily
        [⟨"a", 10⟩, ⟨"b", 20⟩, ⟨"c", 30⟩] 99).length =
      [BucketEntry.mk "a" 10, ⟨"b", 20⟩, ⟨"c", 30⟩].length -
        countOnePolicy.DailyRetentionCount ∧
    ((sortEntries [⟨"a", 10⟩, ⟨"b", 20⟩, ⟨"c", 30⟩]).take
        countOnePolicy.DailyRetentionCount ++
      (sortEntries [⟨"a", 10⟩, ⟨"b", 20⟩, ⟨"c", 30⟩]).drop
        countOnePolicy.DailyRetentionCount).Perm
      [⟨"a", 10⟩, ⟨"b", 20⟩, ⟨"c", 30⟩] ∧
    ∀ d ∈ (sortEntries [⟨"a", 10⟩, ⟨"b", 20⟩, ⟨"c", 30⟩]).drop
        countOnePolicy.DailyRetentionCount,
      ∀ s ∈ (sortEntries [⟨"a", 10⟩, ⟨"b", 20⟩, ⟨"c", 30⟩]).take
          countOnePolicy.DailyRetentionCount,
        d.lastModified < s.lastModified :=
  computePrunable_daily_count countOnePolicy
    [⟨"a", 10⟩, ⟨"b", 20⟩, ⟨"c", 30⟩] 99 rfl (by decide) (by decide)

/-! ## Prefix matching (util.CheckPrefix / util.FindKeysInBucketByPrefix) -/

/-- The metacharacters of Go's `regexp` syntax.  A pattern free of them
is matched literally. -/
def regexMetaChars : List Char :=
  ['\\', '.', '+', '*', '?', '(', ')', '|', '[', ']', '\x7b', '\x7d', '^', '$']

/-- True when the string contains no regular-expression metacharacter,
so `regexp.MustCompile` treats it as a literal. -/
def hasNoRegexMeta (s : String) : Bool :=
  s.data.all (fun c => !(regexMetaChars.contains c))

/-- A literal pattern anchored by `^` matches the text at position `i`
when `i` is the start of the text (Go's default, non-multiline `^`) and
the literal's characters appear at `i`. -/
def caretLitMatchesAt (lit : List Char) (s : List Char) (i : Nat) : Bool :=
  decide (i = 0) && lit.isPrefixOf (s.drop i)

/-- Go `regexp.Match` semantics for a pattern `"^" + lit` with `lit`
literal: search every position of the text for a match. -/
def caretLitMatch (lit : List Char) (s : List Char) : Bool :=
  (List.range (s.length + 1)).any (fun i => caretLitMatchesAt lit s i)

/-- `util.CheckPrefix`: `regexp.MustCompile("^" + pfx).Match([]byte(key))`,
modelled for metacharacter-free `pfx` (where the compiled pattern is the
anchored literal). -/
def CheckPrefix (key : String) (pfx : String) : Bool :=
  caretLitMatch pfx.data key.data

/-- `util.FindKeysInBucketByPrefix`: collect, in listing order, every
key of the bucket listing whose prefix matches. -/
def FindKeysInBucketByPrefix (pfx : String) (bucketContents : List String) : List String :=
  bucketContents.foldl (fun keys k => if CheckPrefix k pfx then keys ++ [k] else keys) []

/-- Searching all positions for an anchored match finds one exactly at
position zero. -/
theorem caretLitMatch_eq_isPrefixOf (lit s : List Char) :
    caretLitMatch lit s = lit.isPrefixOf s := by
  rw [Bool.eq_iff_iff]
  unfold caretLitMatch caretLitMatchesAt
  simp only [List.any_eq_true, Bool.and_eq_true, decide_eq_true_eq]
  constructor
  · rintro ⟨i, _, rfl, h⟩
    simpa using h
  · intro h
    exact ⟨0, by simp, rfl, by simpa using h⟩

/-- Folding the collect-if-matching loop from any accumulator appends
the filtered listing. -/
theorem foldl_collect_eq_filter (p : String → Bool) (l : List String) :
    ∀ acc : List String,
      l.foldl (fun keys k => if p k then keys ++ [k] else keys) acc =
        acc ++ l.filter p := by
  induction l with
  | nil => simp
  | cons a l ih =>
      intro acc
      by_cases h : p a
      · simp [h, ih, List.filter_cons]
      · simp [h, ih, List.filter_cons]

/-- C9: for a metacharacter-free pattern, `CheckPrefix key pfx` holds
iff `pfx` is a literal string prefix of `key`, and consequently
`FindKeysInBucketByPrefix` returns exactly the listed keys that
literally start with the pattern, in listing order. -/
theorem CheckPrefix_literal (key pfx : String)
    (hmeta : hasNoRegexMeta pfx = true) :
    CheckPrefix key pfx = pfx.data.isPrefixOf key.data ∧
    ∀ bucketContents : List String,
      FindKeysInBucketByPrefix pfx bucketContents =
        bucketContents.filter (fun k => pfx.data.isPrefixOf k.data) := by
  refine ⟨caretLitMatch_eq_isPrefixOf pfx.data key.data, ?_⟩
  intro bucketContents
  unfold FindKeysInBucketByPrefix
  rw [foldl_collect_eq_filter, List.nil_append]
  exact List.filter_congr fun k _ => caretLitMatch_eq_isPrefixOf pfx.data k.data

/-- Witness for C9: the daily tier tag picks out exactly the daily keys
of a mixed listing, in listing order. -/
theorem CheckPrefix_literal_witness :
    (CheckPrefix "daily_f_20240305T100000" "daily_" =
      "daily_".data.isPrefixOf "daily_f_20240305T100000".data) ∧
    FindKeysInBucketByPrefix "daily_"
        ["daily_a", "weekly_b", "daily_c", "monthly_d"] =
      (["daily_a", "weekly_b", "daily_c", "monthly_d"].filter
        (fun k => "daily_".data.isPrefixOf k.data)) :=
  ⟨(CheckPrefix_literal "daily_f_20240305T100000" "daily_" (by decide)).1,
   (CheckPrefix_literal "daily_f_20240305T100000" "daily_" (by decide)).2
     ["daily_a", "weekly_b", "daily_c", "monthly_d"]⟩

/-! ## Sorted key retrieval (util.RetrieveSortedKeysByTime) -/

/-- Modelled from the spec: `s3client.SortKeysByTime` is not under src/;
the design document fixes ordering by `lastModified` descending (newest
first) as the canonical sort of listings. -/
def SortKeysByTime (keys : List BucketEntry) : List BucketEntry :=
  sortEntries keys

/-- The value `util.RetrieveSortedKeysByTime` returns: a Go slice that
may be nil (`none`) and a Go error that may be nil (`none`). -/
structure RetrieveResult where
  keys : Option (List BucketEntry)
  error : Option String
deriving DecidableEq, Repr

/-- `util.RetrieveSortedKeysByTime`, as a function of the store listing
it fetches (`s3client.GetKeysByPrefix(svc, bucket, bucketDir + pfx)` is
external I/O and enters as the `listing` argument): propagate a listing
error; return nil keys and nil error on an empty listing; else return
the keys sorted by time and nil error. -/
def RetrieveSortedKeysByTime (listing : Except String (List BucketEntry)) :
    RetrieveResult :=
  match listing with
  | .error e => { keys := none, error := some e }
  | .ok keys =>
      if keys.length = 0 then { keys := none, error := none }
      else { keys := some (SortKeysByTime keys), error := none }

/-- C10: an empty listing yields nil keys together with a nil error (an
empty tier is not an error), and a non-empty listing yields the keys
sorted by time (a permutation of the listing, sorted newest first) with
a nil error. -/
theorem RetrieveSortedKeysByTime_spec (keys : List BucketEntry)
    (hne : keys ≠ []) :
    RetrieveSortedKeysByTime (.ok []) = { keys := none, error := none } ∧
    RetrieveSortedKeysByTime (.ok keys) =
      { keys := some (SortKeysByTime keys), error := none } ∧
    (SortKeysByTime keys).Perm keys ∧
    (SortKeysByTime keys).Sorted entryBefore := by
  refine ⟨rfl, ?_, List.perm_insertionSort entryBefore keys,
    List.sorted_insertionSort entryBefore keys⟩
  have : keys.length ≠ 0 := fun h => hne (List.length_eq_zero.mp h)
  simp [RetrieveSortedKeysByTime, this]

/-- Witness for C10: a two-entry listing comes back sorted newest first
with no error, and the empty listing comes back nil-nil. -/
theorem RetrieveSortedKeysByTime_spec_witness :
    RetrieveSortedKeysByTime (.ok []) = { keys := none, error := none } ∧
    RetrieveSortedKeysByTime (.ok [⟨"old", 10⟩, ⟨"new", 20⟩]) =
      { keys := some (SortKeysByTime [⟨"old", 10⟩, ⟨"new", 20⟩]), error := none } ∧
    (SortKeysByTime [⟨"old", 10⟩, ⟨"new", 20⟩]).Perm [⟨"old", 10⟩, ⟨"new", 20⟩] ∧
    (SortKeysByTime [⟨"old", 10⟩, ⟨"new", 20⟩]).Sorted entryBefore :=
  RetrieveSortedKeysByTime_spec [⟨"old", 10⟩, ⟨"new", 20⟩] (by decide)

/-! ## Upload pipeline (upload.UploadObject / upload.UploadFile) -/

/-- `upload.UploadObject`: the per-upload transfer request.  `Timeout`
is a duration in seconds (Go `time.Duration`, may be negative);
`NumWorkers` and `PartSize` are Go ints. -/
structure UploadObject where
  PathToFile : String
  S3FileName : String
  Bucket : String
  BucketDir : String
  Endpoint : String
  Manipulate : Bool
  Timeout : Int
  NumWorkers : Int
  PartSize : Int
deriving DecidableEq, Repr

/-- A date-time of the upload instant, as Go's clock exposes it. -/
structure GoDateTime where
  year : Nat
  month : Nat
  day : Nat
  hour : Nat
  minute : Nat
  second : Nat
deriving DecidableEq, Repr

/-- The calendar date of a date-time, for tier classification. -/
def GoDateTime.date (t : GoDateTime) : GoDate :=
  { year := Int.ofNat t.year, month := t.month, day := t.day }

/-- Left-pad a number to two digits. -/
def pad2 (n : Nat) : String :=
  if n < 10 then "0" ++ toString n else toString n

/-- Left-pad a number to four digits. -/
def pad4 (n : Nat) : String :=
  if n < 10 then "000" ++ toString n
  else if n < 100 then "00" ++ toString n
  else if n < 1000 then "0" ++ toString n
  else toString n

/-- The sortable timestamp suffix (Go layout `20060102T150405`, i.e.
`YYYYMMDDThhmmss`) appended to manipulated keys. -/
def formatSortableTimestamp (t : GoDateTime) : String :=
  pad4 t.year ++ pad2 t.month ++ pad2 t.day ++ "T" ++
    pad2 t.hour ++ pad2 t.minute ++ pad2 t.second

/-- Modelled from the spec: `upload.UploadFile`'s request validation is
not under src/ — only its tests are.  Each clause and its message comes
from the error strings the test suite asserts; the checks run before any
store call.  The order among several violated clauses is not fixed by
the tests; this model reports the first failing clause in the order
below.  (Resolvability of `PathToFile` to a readable file is a
filesystem property and is not modelled; only emptiness is checked.) -/
def validateUploadObject (o : UploadObject) : Option String :=
  if o.Bucket = "" then
    some "invalid bucket specified, bucket must be specified"
  else if ¬(o.BucketDir = "" ∨ o.BucketDir.endsWith "/") then
    some "expected bucket dir to have trailing slash"
  else if o.NumWorkers < 1 then
    some "concurrent workers should not be less than 1"
  else if o.PathToFile = "" then
    some "path to file should not be empty and must include the full path to the file"
  else if o.Timeout < 0 then
    some "timeout must not be less than 0"
  else
    none

/-- The naming computation: with `Manipulate` (applyNaming) true the
final key is the tier tag, the destination name, an underscore and the
sortable timestamp of the upload instant; with it false the destination
name is used unchanged. -/
def uploadFinalKey (o : UploadObject) (tierPfx : String) (now : GoDateTime) : String :=
  if o.Manipulate then
    tierPfx ++ o.S3FileName ++ "_" ++ formatSortableTimestamp now
  else
    o.S3FileName

/-- The object store, as the set of stored objects: full key paired
with content. -/
abbrev Store := List (String × String)

/-- A call issued against the store. -/
inductive StoreCall where
  | putObject (key : String)
  | deleteObject (key : String)
deriving DecidableEq, Repr

/-- What one `upload.UploadFile` call produces: the returned key, the
returned error, the store calls issued, and the store afterwards. -/
structure UploadResult where
  key : String
  error : Option String
  calls : List StoreCall
  store : Store
deriving DecidableEq, Repr

/-- Modelled from the spec: `upload.UploadFile(svc, object, keyType,
dryRun)` is not under src/ — only its tests and callers are.  Per the
design document: validate the request first (no store call on failure);
compute the final key; on dry run issue no store calls, leave the store
untouched and return the key with no error; otherwise put the object
under the bucket directory plus final key.  The chunked concurrent
transfer is collapsed to its observable effect, one put of the whole
content. -/
def UploadFile (store : Store) (content : String) (o : UploadObject)
    (keyType : String) (dryRun : Bool) (now : GoDateTime) : UploadResult :=
  match validateUploadObject o with
  | some e => { key := "", error := some e, calls := [], store := store }
  | none =>
      let finalKey := uploadFinalKey o keyType now
      if dryRun then
        { key := finalKey, error := none, calls := [], store := store }
      else
        { key := finalKey, error := none
          calls := [.putObject (o.BucketDir ++ finalKey)]
          store := store ++ [(o.BucketDir ++ finalKey, content)] }

/-- C4: a dry-run upload of a valid request performs validation and
naming, issues no store calls, returns the computed final key with no
error, and leaves the store's content set identical. -/
theorem UploadFile_dryRun (store : Store) (content : String)
    (o : UploadObject) (keyType : String) (now : GoDateTime)
    (hvalid : validateUploadObject o = none) :
    (UploadFile store content o keyType true now).error = none ∧
    (UploadFile store content o keyType true now).key = uploadFinalKey o keyType now ∧
    (UploadFile store content o keyType true now).calls = [] ∧
    (UploadFile store content o keyType true now).store = store := by
  simp [UploadFile, hvalid]

/-- The valid manipulated request the test suite uploads. -/
def testUploadObjectManipulated : UploadObject :=
  { PathToFile := "../testBackupFile"
    S3FileName := "test_file"
    Bucket := "testbucket"
    BucketDir := ""
    Endpoint := "amazonaws.com"
    Manipulate := true
    Timeout := 3600
    NumWorkers := 5
    PartSize := 50 }

/-- The same request without name manipulation. -/
def testUploadObjectNotManipulated : UploadObject :=
  { testUploadObjectManipulated with Manipulate := false }

/-- Witness for C4: the dry-run upload of the test request touches
nothing and returns the computed key. -/
theorem UploadFile_dryRun_witness :
    (UploadFile [] "content" testUploadObjectManipulated "daily_" true
        ⟨2024, 3, 5, 10, 0, 0⟩).error = none ∧
    (UploadFile [] "content" testUploadObjectManipulated "daily_" true
        ⟨2024, 3, 5, 10, 0, 0⟩).key =
      uploadFinalKey testUploadObjectManipulated "daily_" ⟨2024, 3, 5, 10, 0, 0⟩ ∧
    (UploadFile [] "content" testUploadObjectManipulated "daily_" true
        ⟨2024, 3, 5, 10, 0, 0⟩).calls = [] ∧
    (UploadFile [] "content" testUploadObjectManipulated "daily_" true
        ⟨2024, 3, 5, 10, 0, 0⟩).store = [] :=
  UploadFile_dryRun [] "content" testUploadObjectManipulated "daily_"
    ⟨2024, 3, 5, 10, 0, 0⟩ (by decide)

/-- C5: for a valid request the returned key follows the naming rule:
with `Manipulate` true it is the tier tag, destination name, underscore
and the sortable `YYYYMMDDThhmmss` timestamp of the upload instant;
with `Manipulate` false it is the destination name unchanged. -/
theorem UploadFile_naming (store : Store) (content : String)
    (o : UploadObject) (keyType : String) (dryRun : Bool) (now : GoDateTime)
    (hvalid : validateUploadObject o = none) :
    (o.Manipulate = true →
      (UploadFile store content o keyType dryRun now).key =
        keyType ++ o.S3FileName ++ "_" ++ formatSortableTimestamp now) ∧
    (o.Manipulate = false →
      (UploadFile store content o keyType dryRun now).key = o.S3FileName) := by
  constructor
  · intro hm
    cases dryRun <;> simp [UploadFile, hvalid, uploadFinalKey, hm]
  · intro hm
    cases dryRun <;> simp [UploadFile, hvalid, uploadFinalKey, hm]

/-- Witness for C5: uploading destination `test_file` at
2024-03-05T10:00:00 under tier tag `daily_` yields
`daily_test_file_20240305T100000` when manipulated, and exactly
`test_file` when not. -/
theorem UploadFile_naming_witness :
    (UploadFile [] "content" testUploadObjectManipulated "daily_" false
        ⟨2024, 3, 5, 10, 0, 0⟩).key = "daily_test_file_20240305T100000" ∧
    (UploadFile [] "content" testUploadObjectNotManipulated "daily_" false
        ⟨2024, 3, 5, 10, 0, 0⟩).key = "test_file" := by
  constructor
  · rw [(UploadFile_naming [] "content" testUploadObjectManipulated "daily_" false
      ⟨2024, 3, 5, 10, 0, 0⟩ (by decide)).1 rfl]
    decide
  · exact (UploadFile_naming [] "content" testUploadObjectNotManipulated "daily_" false
      ⟨2024, 3, 5, 10, 0, 0⟩ (by decide)).2 rfl

/-- C6: a request whose worker count is zero fails validation with the
error naming the worker count, and no store call is issued — stated for
requests passing the checks this model runs earlier (bucket present,
bucket directory well-formed). -/
theorem UploadFile_invalidWorkers (store : Store) (content : String)
    (o : UploadObject) (keyType : String) (dryRun : Bool) (now : GoDateTime)
    (hbucket : o.Bucket ≠ "")
    (hdir : o.BucketDir = "" ∨ o.BucketDir.endsWith "/")
    (hworkers : o.NumWorkers = 0) :
    (UploadFile store content o keyType dryRun now).error =
      some "concurrent workers should not be less than 1" ∧
    (UploadFile store content o keyType dryRun now).calls = [] ∧
    (UploadFile store content o keyType dryRun now).store = store := by
  have hv : validateUploadObject o =
      some "concurrent workers should not be less than 1" := by
    simp [validateUploadObject, hbucket, hdir, hworkers]
  simp [UploadFile, hv]

/-- Witness for C6: the test suite's zero-worker request is rejected
with the worker-count message and the store is untouched. -/
theorem UploadFile_invalidWorkers_witness :
    (UploadFile [] "content"
        { testUploadObjectManipulated with NumWorkers := 0 } "daily_" false
        ⟨2024, 3, 5, 10, 0, 0⟩).error =
      some "concurrent workers should not be less than 1" ∧
    (UploadFile [] "content"
        { testUploadObjectManipulated with NumWorkers := 0 } "daily_" false
        ⟨2024, 3, 5, 10, 0, 0⟩).calls = [] ∧
    (UploadFile [] "content"
        { testUploadObjectManipulated with NumWorkers := 0 } "daily_" false
        ⟨2024, 3, 5, 10, 0, 0⟩).store = [] :=
  UploadFile_invalidWorkers [] "content"
    { testUploadObjectManipulated with NumWorkers := 0 } "daily_" false
    ⟨2024, 3, 5, 10, 0, 0⟩ (by decide) (Or.inl rfl) rfl

/-! ## CLI arguments and defaults (main package) -/

/-- The parsed CLI arguments (`args` in main). -/
structure Args where
  Action : String
  Region : String
  Bucket : String
  CredFile : String
  Profile : String
  PathToFile : String
  S3FileName : String
  BucketDir : String
  Endpoint : String
  Timeout : Nat
  DryRun : Bool
  ConcurrentWorkers : Int
  PartSize : Int
  EnforceRetentionPeriod : Bool
  DailyRetentionCount : Nat
  DailyRetentionPeriod : Nat
  WeeklyRetentionCount : Nat
  WeeklyRetentionPeriod : Nat
deriving DecidableEq, Repr

/-- `util.GetEnvString`: the environment variable's value, or the
default when it is unset or empty.  The environment enters as a function
from names to values (empty string = unset). -/
def GetEnvString (env : String → String) (key : String) (defaultVal : String) : String :=
  if (env key).length = 0 then defaultVal else env key

/-- The argument record `main` builds before `arg.MustParse` runs,
exactly the assignments at the top of `main`. -/
def defaultArgs (env : String → String) : Args :=
  { Action := ""
    Region := ""
    Bucket := ""
    CredFile := GetEnvString env "AWS_CRED_FILE" ""
    Profile := GetEnvString env "AWS_PROFILE" "default"
    PathToFile := ""
    S3FileName := ""
    BucketDir := GetEnvString env "AWS_BUCKET" ""
    Endpoint := GetEnvString env "AWS_ENDPOINT" "amazonaws.com"
    Timeout := 3600
    DryRun := false
    ConcurrentWorkers := 5
    PartSize := 50
    EnforceRetentionPeriod := true
    DailyRetentionCount := 6
    DailyRetentionPeriod := 168
    WeeklyRetentionCount := 4
    WeeklyRetentionPeriod := 672 }

/-- C8: whatever the process environment, the defaults applied before
flag parsing are: timeout 3600 seconds, dry-run off, 5 concurrent
workers, part size 50 MB, retention period enforced, daily retention
count 6 and period 168 hours, weekly retention count 4 and period 672
hours. -/
theorem defaultArgs_values (env : String → String) :
    (defaultArgs env).Timeout = 3600 ∧
    (defaultArgs env).DryRun = false ∧
    (defaultArgs env).ConcurrentWorkers = 5 ∧
    (defaultArgs env).PartSize = 50 ∧
    (defaultArgs env).EnforceRetentionPeriod = true ∧
    (defaultArgs env).DailyRetentionCount = 6 ∧
    (defaultArgs env).DailyRetentionPeriod = 168 ∧
    (defaultArgs env).WeeklyRetentionCount = 4 ∧
    (defaultArgs env).WeeklyRetentionPeriod = 672 :=
  ⟨rfl, rfl, rfl, rfl, rfl, rfl, rfl, rfl, rfl⟩

/-- `getUploadObject`: build the transfer request from the arguments
(`Timeout` becomes a duration in seconds). -/
def getUploadObject (arguments : Args) (manipulate : Bool) : UploadObject :=
  { PathToFile := arguments.PathToFile
    S3FileName := arguments.S3FileName
    BucketDir := arguments.BucketDir
    Endpoint := arguments.Endpoint
    Bucket := arguments.Bucket
    Timeout := Int.ofNat arguments.Timeout
    NumWorkers := arguments.ConcurrentWorkers
    PartSize := arguments.PartSize
    Manipulate := manipulate }

/-- `getRotationPolicy`: the standard GFS rotation policy built from the
arguments, with the fixed tier tags. -/
def getRotationPolicy (arguments : Args) : RotationPolicy :=
  { DailyRetentionPeriod := arguments.DailyRetentionPeriod
    DailyRetentionCount := arguments.DailyRetentionCount
    DailyPrefix := "daily_"
    WeeklyRetentionPeriod := arguments.WeeklyRetentionPeriod
    WeeklyRetentionCount := arguments.WeeklyRetentionCount
    WeeklyPrefix := "weekly_"
    MonthlyPrefix := "monthly_"
    EnforceRetentionPeriod := arguments.EnforceRetentionPeriod }

/-! ## Backup orchestration (main.runBackupAction / main.runAction) -/

/-- The observable steps of the backup workflow, in order. -/
inductive BackupEvent where
  | uploadAttempt
  | exitProcess (code : Nat)
  | rotationRun
deriving DecidableEq, Repr

/-- The outcome of `runBackupAction`: the ordered workflow events and
the exit the process took, if any (`os.Exit(1)` on upload failure). -/
structure BackupOutcome where
  events : List BackupEvent
  exitCode : Option Nat
deriving DecidableEq, Repr

/-- The world the orchestration runs against: the store it starts from,
the file content being backed up, whether client construction and the
download succeed, and the current instant. -/
structure MainEnv where
  store : Store
  content : String
  clientOk : Bool
  downloadOk : Bool
  now : GoDateTime
deriving DecidableEq, Repr

/-- `main.runBackupAction`: classify the instant, upload with naming
applied; on upload failure exit the process with code 1 — rotation
never runs; on success run the rotation step. -/
def runBackupAction (env : MainEnv) (arguments : Args) : BackupOutcome :=
  let rotationPolicy := getRotationPolicy arguments
  let pfx := GetKeyType rotationPolicy env.now.date
  let r := UploadFile env.store env.content (getUploadObject arguments true)
    pfx arguments.DryRun env.now
  if r.error.isSome then
    { events := [.uploadAttempt, .exitProcess 1], exitCode := some 1 }
  else
    { events := [.uploadAttempt, .rotationRun], exitCode := none }

/-- C3: rotation runs exactly when the upload step returned success; a
failed upload exits the process (code 1) with no rotation; and every
possible event sequence places rotation strictly after the upload. -/
theorem runBackupAction_rotation_after_upload (env : MainEnv) (arguments : Args) :
    (BackupEvent.rotationRun ∈ (runBackupAction env arguments).events ↔
      (UploadFile env.store env.content (getUploadObject arguments true)
          (GetKeyType (getRotationPolicy arguments) env.now.date)
          arguments.DryRun env.now).error = none) ∧
    ((UploadFile env.store env.content (getUploadObject arguments true)
          (GetKeyType (getRotationPolicy arguments) env.now.date)
          arguments.DryRun env.now).error.isSome = true →
      (runBackupAction env arguments).events =
        [BackupEvent.uploadAttempt, BackupEvent.exitProcess 1] ∧
      BackupEvent.rotationRun ∉ (runBackupAction env arguments).events ∧
      (runBackupAction env arguments).exitCode = some 1) ∧
    ((runBackupAction env arguments).events =
        [BackupEvent.uploadAttempt, BackupEvent.rotationRun] ∨
      (runBackupAction env arguments).events =
        [BackupEvent.uploadAttempt, BackupEvent.exitProcess 1]) := by
  unfold runBackupAction
  cases herr : (UploadFile env.store env.content (getUploadObject arguments true)
      (GetKeyType (getRotationPolicy arguments) env.now.date)
      arguments.DryRun env.now).error with
  | none => simp [herr]
  | some e => simp [herr]

/-- Witness for C3: with a zero-worker request the upload fails, the
process exits with code 1 and rotation never runs. -/
theorem runBackupAction_rotation_witness :
    (runBackupAction ⟨[], "content", true, true, ⟨2024, 3, 5, 10, 0, 0⟩⟩
        { defaultArgs (fun _ => "") with
            Action := "backup", Bucket := "b", PathToFile := "f",
            S3FileName := "n", ConcurrentWorkers := 0 }).events =
      [BackupEvent.uploadAttempt, BackupEvent.exitProcess 1] ∧
    BackupEvent.rotationRun ∉
      (runBackupAction ⟨[], "content", true, true, ⟨2024, 3, 5, 10, 0, 0⟩⟩
        { defaultArgs (fun _ => "") with
            Action := "backup", Bucket := "b", PathToFile := "f",
            S3FileName := "n", ConcurrentWorkers := 0 }).events ∧
    (runBackupAction ⟨[], "content", true, true, ⟨2024, 3, 5, 10, 0, 0⟩⟩
        { defaultArgs (fun _ => "") with
            Action := "backup", Bucket := "b", PathToFile := "f",
            S3FileName := "n", ConcurrentWorkers := 0 }).exitCode = some 1 :=
  (runBackupAction_rotation_after_upload
    ⟨[], "content", true, true, ⟨2024, 3, 5, 10, 0, 0⟩⟩
    { defaultArgs (fun _ => "") with
        Action := "backup", Bucket := "b", PathToFile := "f",
        S3FileName := "n", ConcurrentWorkers := 0 }).2.1 (by decide)

/-! ## Process exit behaviour (main / main.runAction) -/

/-- How one process run ends: the exit status, and whether a fatal-style
message went to the error log (`log.Error`). -/
structure MainOutcome where
  exitCode : Nat
  loggedError : Bool
deriving DecidableEq, Repr

/-- `main.runUploadAction`: plain upload without naming or rotation;
`os.Exit(1)` when the upload fails. -/
def runUploadAction (env : MainEnv) (arguments : Args) : MainOutcome :=
  let r := UploadFile env.store env.content (getUploadObject arguments false)
    "" arguments.DryRun env.now
  if r.error.isSome then { exitCode := 1, loggedError := true }
  else { exitCode := 0, loggedError := false }

/-- `main.runAction`: dispatch on the action string exactly as the Go
switch does.  Backup exits 1 on upload failure; upload and download exit
1 on failure; rotate runs rotation and returns; the default branch only
logs `unexpected action specified` and returns — `main` then finishes
normally, so the process exits 0. -/
def runAction (env : MainEnv) (arguments : Args) : MainOutcome :=
  if arguments.Action = "backup" then
    match (runBackupAction env arguments).exitCode with
    | some c => { exitCode := c, loggedError := true }
    | none => { exitCode := 0, loggedError := false }
  else if arguments.Action = "upload" then
    runUploadAction env arguments
  else if arguments.Action = "download" then
    if env.downloadOk then { exitCode := 0, loggedError := false }
    else { exitCode := 1, loggedError := true }
  else if arguments.Action = "rotate" then
    { exitCode := 0, loggedError := false }
  else
    { exitCode := 0, loggedError := true }

/-- `main`: create the store client — exiting 1 on failure — then run
the requested action. -/
def mainOutcome (env : MainEnv) (arguments : Args) : MainOutcome :=
  if env.clientOk then runAction env arguments
  else { exitCode := 1, loggedError := true }

/-- An argument record asking for an action no branch recognises. -/
def unrecognisedActionArgs : Args :=
  { defaultArgs (fun _ => "") with
      Action := "frobnicate", Region := "us-east-1", Bucket := "b",
      PathToFile := "f", S3FileName := "n" }

/-- Counterexample to C7 as stated: an unrecognised action is reported
on the error log, yet the process exits 0 — the default branch of the
action switch only logs and `main` then finishes normally, so a run that
did nothing (no upload, no rotation) still exits as a success. -/
theorem mainOutcome_unrecognised_action_exits_zero :
    (mainOutcome ⟨[], "content", true, true, ⟨2024, 3, 5, 10, 0, 0⟩⟩
        unrecognisedActionArgs).loggedError = true ∧
    (mainOutcome ⟨[], "content", true, true, ⟨2024, 3, 5, 10, 0, 0⟩⟩
        unrecognisedActionArgs).exitCode = 0 := by
  decide

/-- C7 (amended): every fatal error of the recognised workflows — a
failed client construction, a failed backup upload, a failed plain
upload, a failed download — ends the process with exit status 1, and
the recognised workflows exit 0 on success; an unrecognised action,
however, only logs an error and the process still exits 0. -/
theorem mainOutcome_exit_codes (env : MainEnv) (arguments : Args) :
    (env.clientOk = false → (mainOutcome env arguments).exitCode = 1) ∧
    (env.clientOk = true → arguments.Action = "backup" →
      (UploadFile env.store env.content (getUploadObject arguments true)
          (GetKeyType (getRotationPolicy arguments) env.now.date)
          arguments.DryRun env.now).error.isSome = true →
      (mainOutcome env arguments).exitCode = 1) ∧
    (env.clientOk = true → arguments.Action = "backup" →
      (UploadFile env.store env.content (getUploadObject arguments true)
          (GetKeyType (getRotationPolicy arguments) env.now.date)
          arguments.DryRun env.now).error.isSome = false →
      (mainOutcome env arguments).exitCode = 0) ∧
    (env.clientOk = true → arguments.Action = "upload" →
      (UploadFile env.store env.content (getUploadObject arguments false)
          "" arguments.DryRun env.now).error.isSome = true →
      (mainOutcome env arguments).exitCode = 1) ∧
    (env.clientOk = true → arguments.Action = "upload" →
      (UploadFile env.store env.content (getUploadObject arguments false)
          "" arguments.DryRun env.now).error.isSome = false →
      (mainOutcome env arguments).exitCode = 0) ∧
    (env.clientOk = true → arguments.Action = "download" →
      env.downloadOk = false → (mainOutcome env arguments).exitCode = 1) ∧
    (env.clientOk = true → arguments.Action = "download" →
      env.downloadOk = true → (mainOutcome env arguments).exitCode = 0) ∧
    (env.clientOk = true → arguments.Action = "rotate" →
      (mainOutcome env arguments).exitCode = 0) ∧
    (env.clientOk = true →
      arguments.Action ≠ "backup" → arguments.Action ≠ "upload" →
      arguments.Action ≠ "download" → arguments.Action ≠ "rotate" →
      (mainOutcome env arguments).exitCode = 0 ∧
      (mainOutcome env arguments).loggedError = true) := by
  refine ⟨?_, ?_, ?_, ?_, ?_, ?_, ?_, ?_, ?_⟩
  · intro hc
    simp [mainOutcome, hc]
  · intro hc ha herr
    simp [mainOutcome, hc, runAction, ha, runBackupAction, herr]
  · intro hc ha herr
    simp [mainOutcome, hc, runAction, ha, runBackupAction, herr]
  · intro hc ha herr
    simp [mainOutcome, hc, runAction, ha, runUploadAction, herr]
  · intro hc ha herr
    simp [mainOutcome, hc, runAction, ha, runUploadAction, herr]
  · intro hc ha hd
    simp [mainOutcome, hc, runAction, ha, hd]
  · intro hc ha hd
    simp [mainOutcome, hc, runAction, ha, hd]
  · intro hc ha
    simp [mainOutcome, hc, runAction, ha]
  · intro hc h1 h2 h3 h4
    simp [mainOutcome, hc, runAction, h1, h2, h3, h4]

/-- Witness for C7 (amended): a failed client construction exits 1, a
backup whose upload fails (zero workers) exits 1, and a backup whose
upload succeeds exits 0. -/
theorem mainOutcome_exit_codes_witness :
    (mainOutcome ⟨[], "content", false, true, ⟨2024, 3, 5, 10, 0, 0⟩⟩
        unrecognisedActionArgs).exitCode = 1 ∧
    (mainOutcome ⟨[], "content", true, true, ⟨2024, 3, 5, 10, 0, 0⟩⟩
        { unrecognisedActionArgs with
            Action := "backup", ConcurrentWorkers := 0 }).exitCode = 1 ∧
    (mainOutcome ⟨[], "content", true, true, ⟨2024, 3, 5, 10, 0, 0⟩⟩
        { unrecognisedActionArgs with Action := "backup" }).exitCode = 0 :=
  ⟨(mainOutcome_exit_codes ⟨[], "content", false, true, ⟨2024, 3, 5, 10, 0, 0⟩⟩
      unrecognisedActionArgs).1 rfl,
   (mainOutcome_exit_codes ⟨[], "content", true, true, ⟨2024, 3, 5, 10, 0, 0⟩⟩
      { unrecognisedActionArgs with
          Action := "backup", ConcurrentWorkers := 0 }).2.1 rfl rfl (by decide),
   (mainOutcome_exit_codes ⟨[], "content", true, true, ⟨2024, 3, 5, 10, 0, 0⟩⟩
      { unrecognisedActionArgs with Action := "backup" }).2.2.1 rfl rfl (by decide)⟩

end S3Backup
